import Mathlib

/-!
Shallow embedding of the trading-algo repository: the candle aggregator
(`src/utils/candle_aggregator.py`), the yesterday-high/low breakout strategy
(`src/stretegies/yesterday_high_low.py`) and the session-management part of the
broker client (`src/clients/capitap_client.py`), together with theorems
settling the specification claims about them.

Modelling conventions:
* Python `datetime` values are embedded as a `DateTime` structure of calendar
  components (day ordinal, hour, minute, second, microsecond); chronological
  order and arithmetic go through `DateTime.toMicro`, the total number of
  microseconds the components denote.  `timedelta` addition of whole seconds is
  represented on the `toMicro` scale.
* Python floats are embedded as rationals; `round(x, 2)` is embedded as exact
  round-half-to-even at two decimals (`pyRound2`).
* Python `date` values are embedded as their proleptic-Gregorian ordinal
  (`date.toordinal`), a natural number; ordinal 1 is a Monday, so
  `date.weekday()` is `(n + 6) % 7`.
* The levels CSV read by `load_yesterday_levels` is external data; it is
  abstracted as an oracle `levels : Nat → ℚ × ℚ` mapping a previous trading
  day's ordinal to its (high_bid, low_bid) row.  The log-text `reason` strings
  and the echoed `time` field of strategy results are elided; the `decision`
  and `order` fields are kept.
* Mutable per-epic dictionary entries become explicit state values threaded
  through the step functions; the aggregator is modelled per symbol (its
  per-epic dictionary entries are independent), and its statistics and CSV
  side effects, which no claim mentions, are not part of the state.
-/

namespace TradingAlgo

/-- Calendar components of a Python `datetime` (date ordinal, hour, minute,
second, microsecond). -/
structure DateTime where
  day : Nat
  hour : Nat
  minute : Nat
  second : Nat
  microsecond : Nat
deriving DecidableEq, Repr

/-- The component ranges Python's `datetime` guarantees. -/
def DateTime.Valid (t : DateTime) : Prop :=
  t.hour < 24 ∧ t.minute < 60 ∧ t.second < 60 ∧ t.microsecond < 1000000

instance (t : DateTime) : Decidable t.Valid := by
  unfold DateTime.Valid
  infer_instance

/-- Total microseconds denoted by the components: the chronological value of
the datetime. -/
def DateTime.toMicro (t : DateTime) : Nat :=
  (((t.day * 24 + t.hour) * 60 + t.minute) * 60 + t.second) * 1000000 + t.microsecond

/-- `CandleAggregator._get_resolution_second`: the resolution-name table;
`dict.get` yields `None` off the table. -/
def getResolutionSecond (resolution : String) : Option Nat :=
  match resolution with
  | "MINUTE" => some 60
  | "MINUTE_5" => some 300
  | "MINUTE_15" => some 900
  | "MINUTE_30" => some 1800
  | "HOUR_1" => some 3600
  | "HOUR_4" => some 14400
  | "DAY_1" => some 86400
  | "WEEK_1" => some 604800
  | _ => none

/-- `CandleAggregator._calculate_candle_start`: for resolutions of at least a
minute, zero the second and microsecond and truncate the minute to a multiple
of `resolution_seconds // 60`; otherwise zero the microsecond and truncate the
second. -/
def calculateCandleStart (resolutionSeconds : Nat) (t : DateTime) : DateTime :=
  if 60 ≤ resolutionSeconds then
    let minutes := resolutionSeconds / 60
    { t with second := 0, microsecond := 0, minute := t.minute - t.minute % minutes }
  else
    { t with microsecond := 0, second := t.second - t.second % resolutionSeconds }

/-- Modelled from the spec: `floor(tick.exchange_timestamp, resolution)`, the
largest multiple of the resolution below or equal to the timestamp, on the
microsecond scale. -/
def bucketFloorMicro (resolutionSeconds : Nat) (t : DateTime) : Nat :=
  t.toMicro - t.toMicro % (resolutionSeconds * 1000000)

/-- Claim C3 (counterexample): for resolution HOUR_4 (14400 s, a supported
resolution) and the valid timestamp 01:00:00 of day 1, the computed candle
start is 01:00:00 itself, not the largest 4-hour multiple below it; moreover
the supported resolution WEEK_1 (604800 s) is not an exact divisor of a day. -/
theorem bucket_floor_cex :
    getResolutionSecond "HOUR_4" = some 14400 ∧
    DateTime.Valid ⟨1, 1, 0, 0, 0⟩ ∧
    (calculateCandleStart 14400 ⟨1, 1, 0, 0, 0⟩).toMicro ≠
      bucketFloorMicro 14400 ⟨1, 1, 0, 0, 0⟩ ∧
    getResolutionSecond "WEEK_1" = some 604800 ∧ ¬ (604800 ∣ 86400) := by
  refine ⟨rfl, by decide, by decide, rfl, by decide⟩

/-- Claim C3 (amended): the supported resolution names map to
[60, 300, 900, 1800, 3600, 14400, 86400, 604800] seconds; for every valid
timestamp, the resolutions up to one hour (MINUTE .. HOUR_1) produce the
largest multiple of the resolution at or below the timestamp and each divides
a day exactly; the resolutions above one hour (HOUR_4, DAY_1, WEEK_1) instead
truncate only to the top of the hour, and of these HOUR_4 and DAY_1 divide a
day while WEEK_1 does not. -/
theorem bucket_floor_amended (t : DateTime) (hv : t.Valid) :
    (["MINUTE", "MINUTE_5", "MINUTE_15", "MINUTE_30", "HOUR_1", "HOUR_4", "DAY_1",
        "WEEK_1"].filterMap getResolutionSecond
      = [60, 300, 900, 1800, 3600, 14400, 86400, 604800]) ∧
    (∀ r ∈ [60, 300, 900, 1800, 3600],
      (calculateCandleStart r t).toMicro = bucketFloorMicro r t ∧ r ∣ 86400) ∧
    (∀ r ∈ [14400, 86400, 604800],
      (calculateCandleStart r t).toMicro = bucketFloorMicro 3600 t) ∧
    14400 ∣ 86400 ∧ 86400 ∣ 86400 ∧ ¬ (604800 ∣ 86400) := by
  obtain ⟨hh, hm, hs, hu⟩ := hv
  refine ⟨rfl, ?_, ?_, by decide, by decide, by decide⟩
  · intro r hr
    fin_cases hr <;>
      refine ⟨?_, by decide⟩ <;>
      simp only [calculateCandleStart, bucketFloorMicro, DateTime.toMicro] <;>
      norm_num <;> omega
  · intro r hr
    fin_cases hr <;>
      simp only [calculateCandleStart, bucketFloorMicro, DateTime.toMicro] <;>
      norm_num <;> omega

/-- Witness for `bucket_floor_amended` at the concrete timestamp
day 1, 13:37:42.123456, resolution MINUTE_15. -/
theorem bucket_floor_amended_witness :
    (calculateCandleStart 900 ⟨1, 13, 37, 42, 123456⟩).toMicro
      = bucketFloorMicro 900 ⟨1, 13, 37, 42, 123456⟩ ∧ 900 ∣ 86400 :=
  (bucket_floor_amended ⟨1, 13, 37, 42, 123456⟩ (by decide)).2.1 900 (by decide)

/-- A market tick as consumed by `CandleAggregator.process_tick`: the fields
`epic`, `bid` and `timestamp` it reads, plus the `received_at` receipt time
(an opaque tag) used for `closed_at`. -/
structure Tick where
  epic : String
  bid : ℚ
  timestamp : DateTime
  received_at : Nat
deriving DecidableEq

/-- The per-epic in-progress candle dictionary entry (`candle_data[epic]`);
`last_update` is absent (`none`) until the first same-bucket update writes it. -/
structure CandleState where
  open_ : ℚ
  high : ℚ
  low : ℚ
  close : ℚ
  volume : Nat
  start_time : DateTime
  last_update : Option DateTime
deriving DecidableEq

/-- A frozen candle as returned by `_close_candle`: the in-progress fields plus
`end_time` (start plus the resolution, on the microsecond scale, mirroring the
`timedelta` addition) and `closed_at` (the tick's receipt time). -/
structure ClosedCandle where
  open_ : ℚ
  high : ℚ
  low : ℚ
  close : ℚ
  volume : Nat
  start_time : DateTime
  last_update : Option DateTime
  end_time : Nat
  closed_at : Nat
deriving DecidableEq

/-- `CandleAggregator._start_new_candle`. -/
def startNewCandle (price : ℚ) (start : DateTime) : CandleState :=
  { open_ := price, high := price, low := price, close := price, volume := 1,
    start_time := start, last_update := none }

/-- `CandleAggregator._close_candle` (the CSV persistence side effect, external
to the aggregation semantics, is dropped). -/
def closeCandle (resolutionSeconds : Nat) (k : CandleState) (t : Tick) : ClosedCandle :=
  { open_ := k.open_, high := k.high, low := k.low, close := k.close,
    volume := k.volume, start_time := k.start_time, last_update := k.last_update,
    end_time := k.start_time.toMicro + resolutionSeconds * 1000000,
    closed_at := t.received_at }

/-- The same-bucket update branch of `process_tick`. -/
def updateCandle (k : CandleState) (t : Tick) : CandleState :=
  { k with
    high := max k.high t.bid, low := min k.low t.bid, close := t.bid,
    volume := k.volume + 1, last_update := some t.timestamp }

/-- `CandleAggregator.process_tick` for one epic: the state is that epic's
in-progress candle (`none` when the epic has no entry yet); returns the new
state and the closed candle, if any.  Python's `datetime` comparison is
chronological, embedded via `toMicro`. -/
def processTick (resolutionSeconds : Nat) (st : Option CandleState) (t : Tick) :
    Option CandleState × Option ClosedCandle :=
  let start := calculateCandleStart resolutionSeconds t.timestamp
  match st with
  | none => (some (startNewCandle t.bid start), none)
  | some k =>
    if k.start_time.toMicro < start.toMicro then
      (some (startNewCandle t.bid start), some (closeCandle resolutionSeconds k t))
    else
      (some (updateCandle k t), none)

/-- Feeding a tick sequence through `process_tick`, collecting each call's
return value. -/
def processTicks (resolutionSeconds : Nat) (st : Option CandleState) :
    List Tick → Option CandleState × List (Option ClosedCandle)
  | [] => (st, [])
  | t :: ts =>
    let p := processTick resolutionSeconds st t
    let q := processTicks resolutionSeconds p.1 ts
    (q.1, p.2 :: q.2)

theorem updateCandle_start (k : CandleState) (t : Tick) :
    (updateCandle k t).start_time = k.start_time := rfl

/-- Folding same-bucket ticks never rolls the candle over: `process_tick`
keeps updating in place and emits nothing. -/
theorem processTicks_same_bucket (resolutionSeconds : Nat) (k : CandleState)
    (ts : List Tick)
    (hsame : ∀ u ∈ ts, calculateCandleStart resolutionSeconds u.timestamp = k.start_time) :
    processTicks resolutionSeconds (some k) ts
      = (some (ts.foldl updateCandle k), List.replicate ts.length none) := by
  induction ts generalizing k with
  | nil => rfl
  | cons t ts ih =>
    have ht : calculateCandleStart resolutionSeconds t.timestamp = k.start_time :=
      hsame t (List.mem_cons_self t ts)
    have hrest : ∀ u ∈ ts,
        calculateCandleStart resolutionSeconds u.timestamp = (updateCandle k t).start_time := by
      intro u hu
      rw [updateCandle_start]
      exact hsame u (List.mem_cons_of_mem t hu)
    simp only [processTicks, processTick, ht, lt_self_iff_false, if_false,
      List.foldl_cons, List.length_cons, List.replicate_succ]
    rw [ih (updateCandle k t) hrest]

theorem foldl_updateCandle_open (ts : List Tick) (k : CandleState) :
    (ts.foldl updateCandle k).open_ = k.open_ := by
  induction ts generalizing k with
  | nil => rfl
  | cons t ts ih => simpa [updateCandle] using ih (updateCandle k t)

theorem foldl_updateCandle_volume (ts : List Tick) (k : CandleState) :
    (ts.foldl updateCandle k).volume = k.volume + ts.length := by
  induction ts generalizing k with
  | nil => rfl
  | cons t ts ih =>
    rw [List.foldl_cons, ih (updateCandle k t)]
    simp only [updateCandle, List.length_cons]
    omega

theorem foldl_updateCandle_close (ts : List Tick) (k : CandleState) (h : ts ≠ []) :
    (ts.foldl updateCandle k).close = (ts.getLast h).bid := by
  induction ts generalizing k with
  | nil => exact absurd rfl h
  | cons t ts ih =>
    cases ts with
    | nil => rfl
    | cons u us =>
      rw [List.foldl_cons, ih (updateCandle k t) (List.cons_ne_nil u us)]
      rw [List.getLast_cons (List.cons_ne_nil u us)]

theorem foldl_updateCandle_high (ts : List Tick) (k : CandleState) :
    (ts.foldl updateCandle k).high = (ts.map Tick.bid).foldl max k.high := by
  induction ts generalizing k with
  | nil => rfl
  | cons t ts ih => simpa [updateCandle] using ih (updateCandle k t)

theorem foldl_updateCandle_low (ts : List Tick) (k : CandleState) :
    (ts.foldl updateCandle k).low = (ts.map Tick.bid).foldl min k.low := by
  induction ts generalizing k with
  | nil => rfl
  | cons t ts ih => simpa [updateCandle] using ih (updateCandle k t)

/-- Claim C4: for a non-empty same-bucket tick sequence processed from an
empty state, the first tick creates the candle with
open = high = low = close = bid and volume 1 returning `none`; the final
in-progress candle has open = first bid, close = last bid, high and low the
running max and min of the bids, volume = number of ticks; and every call
returns `none`. -/
theorem within_bucket_aggregation (resolutionSeconds : Nat) (t : Tick)
    (rest : List Tick)
    (hsame : ∀ u ∈ rest, calculateCandleStart resolutionSeconds u.timestamp
      = calculateCandleStart resolutionSeconds t.timestamp) :
    processTick resolutionSeconds none t
      = (some {
          open_ := t.bid, high := t.bid, low := t.bid, close := t.bid,
          volume := 1, start_time := calculateCandleStart resolutionSeconds t.timestamp,
          last_update := none }, none) ∧
    (∃ k, (processTicks resolutionSeconds none (t :: rest)).1 = some k ∧
      k.open_ = t.bid ∧
      k.close = ((t :: rest).getLast (List.cons_ne_nil t rest)).bid ∧
      k.high = (rest.map Tick.bid).foldl max t.bid ∧
      k.low = (rest.map Tick.bid).foldl min t.bid ∧
      k.volume = rest.length + 1) ∧
    (processTicks resolutionSeconds none (t :: rest)).2
      = List.replicate (rest.length + 1) none := by
  have hfirst : processTick resolutionSeconds none t
      = (some (startNewCandle t.bid (calculateCandleStart resolutionSeconds t.timestamp)),
          none) := rfl
  have hstart : (startNewCandle t.bid
      (calculateCandleStart resolutionSeconds t.timestamp)).start_time
      = calculateCandleStart resolutionSeconds t.timestamp := rfl
  have hrest := processTicks_same_bucket resolutionSeconds
    (startNewCandle t.bid (calculateCandleStart resolutionSeconds t.timestamp)) rest
    (by intro u hu; rw [hstart]; exact hsame u hu)
  have hall : processTicks resolutionSeconds none (t :: rest)
      = (some (rest.foldl updateCandle
            (startNewCandle t.bid (calculateCandleStart resolutionSeconds t.timestamp))),
         none :: List.replicate rest.length none) := by
    simp only [processTicks, hfirst, hrest]
  refine ⟨rfl, ⟨rest.foldl updateCandle
    (startNewCandle t.bid (calculateCandleStart resolutionSeconds t.timestamp)),
    ?_, ?_, ?_, ?_, ?_, ?_⟩, ?_⟩
  · rw [hall]
  · exact foldl_updateCandle_open rest _
  · cases rest with
    | nil => rfl
    | cons u us =>
      rw [foldl_updateCandle_close _ _ (List.cons_ne_nil u us),
        List.getLast_cons (List.cons_ne_nil u us)]
  · exact foldl_updateCandle_high rest _
  · exact foldl_updateCandle_low rest _
  · rw [foldl_updateCandle_volume]; exact Nat.add_comm 1 rest.length
  · rw [hall, List.replicate_succ]

/-- Witness for `within_bucket_aggregation`: three ticks in the 13:30 bucket
at 15-minute resolution. -/
theorem within_bucket_aggregation_witness :
    (processTicks 900 none
      [{ epic := "GOLD", bid := 10, timestamp := ⟨1, 13, 31, 0, 0⟩, received_at := 1 },
       { epic := "GOLD", bid := 12, timestamp := ⟨1, 13, 35, 2, 0⟩, received_at := 2 },
       { epic := "GOLD", bid := 9, timestamp := ⟨1, 13, 44, 59, 0⟩, received_at := 3 }]).2
      = List.replicate 3 none :=
  (within_bucket_aggregation 900
    { epic := "GOLD", bid := 10, timestamp := ⟨1, 13, 31, 0, 0⟩, received_at := 1 }
    [{ epic := "GOLD", bid := 12, timestamp := ⟨1, 13, 35, 2, 0⟩, received_at := 2 },
     { epic := "GOLD", bid := 9, timestamp := ⟨1, 13, 44, 59, 0⟩, received_at := 3 }]
    (by decide)).2.2

/-- Claim C5: with an in-progress candle, `process_tick` returns a closed
candle exactly when the tick's bucket start is strictly past the candle's
start; the frozen candle carries `end_time = start_time + resolution` on the
microsecond scale and `closed_at` = the tick's receipt time; ticks whose
bucket start is at or behind the candle's start are folded into it and return
`none`; and a valid timestamp at an exact multiple of any supported resolution
is its own bucket start. -/
theorem rollover_condition (resolutionSeconds : Nat) (k : CandleState) (t : Tick) :
    (k.start_time.toMicro < (calculateCandleStart resolutionSeconds t.timestamp).toMicro →
      processTick resolutionSeconds (some k) t
        = (some (startNewCandle t.bid (calculateCandleStart resolutionSeconds t.timestamp)),
           some {
             open_ := k.open_, high := k.high, low := k.low, close := k.close,
             volume := k.volume, start_time := k.start_time, last_update := k.last_update,
             end_time := k.start_time.toMicro + resolutionSeconds * 1000000,
             closed_at := t.received_at })) ∧
    (¬ k.start_time.toMicro < (calculateCandleStart resolutionSeconds t.timestamp).toMicro →
      processTick resolutionSeconds (some k) t = (some (updateCandle k t), none)) ∧
    (∀ r ∈ [60, 300, 900, 1800, 3600, 14400, 86400, 604800], t.timestamp.Valid →
      t.timestamp.toMicro % (r * 1000000) = 0 →
      (calculateCandleStart r t.timestamp).toMicro = t.timestamp.toMicro) := by
  refine ⟨fun h => ?_, fun h => ?_, ?_⟩
  · simp only [processTick, if_pos h]
    rfl
  · simp only [processTick, if_neg h]
  · intro r hr hv hz
    obtain ⟨hh, hm, hs, hu⟩ := hv
    revert hz
    fin_cases hr <;>
      simp only [calculateCandleStart, DateTime.toMicro] <;>
      norm_num <;> omega

/-- The in-progress candle used by the rollover witness. -/
def rolloverDemoCandle : CandleState :=
  {
    open_ := 10, high := 12, low := 9, close := 11, volume := 7,
    start_time := ⟨1, 13, 30, 0, 0⟩, last_update := some ⟨1, 13, 44, 59, 0⟩ }

/-- The tick used by the rollover witness: exactly at 13:45:00, a multiple of
900 seconds. -/
def rolloverDemoTick : Tick :=
  { epic := "GOLD", bid := 8, timestamp := ⟨1, 13, 45, 0, 0⟩, received_at := 42 }

theorem rollover_condition_witness :
    processTick 900 (some rolloverDemoCandle) rolloverDemoTick
      = (some (startNewCandle 8 (calculateCandleStart 900 ⟨1, 13, 45, 0, 0⟩)),
         some {
           open_ := 10, high := 12, low := 9, close := 11, volume := 7,
           start_time := ⟨1, 13, 30, 0, 0⟩, last_update := some ⟨1, 13, 44, 59, 0⟩,
           end_time := DateTime.toMicro ⟨1, 13, 30, 0, 0⟩ + 900 * 1000000,
           closed_at := 42 }) :=
  (rollover_condition 900 rolloverDemoCandle rolloverDemoTick).1 (by decide)

/-- `date.weekday()` for a date given by its proleptic-Gregorian ordinal
(`date.toordinal`): ordinal 1 is a Monday and Monday is 0. -/
def weekday (n : Nat) : Nat := (n + 6) % 7

/-- `get_previous_trading_day` from `yesterday_high_low.py`: Monday maps back
3 calendar days, Sunday 2, anything else 1. -/
def getPreviousTradingDay (today : Nat) : Nat :=
  if weekday today = 0 then today - 3
  else if weekday today = 6 then today - 2
  else today - 1

/-- Claim C8: `get_previous_trading_day` returns the date 3 calendar days
earlier on a Monday, 2 on a Sunday, 1 otherwise. -/
theorem previous_trading_day_mapping (n : Nat) (h3 : 3 ≤ n) :
    (weekday n = 0 → getPreviousTradingDay n + 3 = n) ∧
    (weekday n = 6 → getPreviousTradingDay n + 2 = n) ∧
    (weekday n ≠ 0 → weekday n ≠ 6 → getPreviousTradingDay n + 1 = n) := by
  unfold getPreviousTradingDay
  refine ⟨fun h0 => ?_, fun h6 => ?_, fun h0 h6 => ?_⟩
  · rw [if_pos h0]; omega
  · have h0 : weekday n ≠ 0 := by rw [h6]; decide
    rw [if_neg h0, if_pos h6]; omega
  · rw [if_neg h0, if_neg h6]; omega

/-- Witness for `previous_trading_day_mapping` at ordinal 8 (0001-01-08, a
Monday). -/
theorem previous_trading_day_mapping_witness :
    getPreviousTradingDay 8 + 3 = 8 :=
  (previous_trading_day_mapping 8 (by decide)).1 (by decide)

/-- The order direction strings of the strategy. -/
inductive Dir where
  | BUY
  | SELL
deriving DecidableEq, Repr

/-- The `decision` values a strategy result can carry. -/
inductive Decision where
  | INIT_DAY
  | BLOCKED
  | C1
  | C2
  | INVALIDATED
  | NO_TRADE
  | SIGNAL
  | REJECTED
deriving DecidableEq, Repr

/-- The candle dictionary fields `on_candle_close` reads: `start_time` (whose
`.date()` is its `day` component), `open`, `high`, `low`, `close`. -/
structure SCandle where
  start_time : DateTime
  open_ : ℚ
  high : ℚ
  low : ℚ
  close : ℚ
deriving DecidableEq

/-- The `result["order"]` payload built on a SIGNAL.  The source copies
`self.direction` into the payload, so the field is an `Option`. -/
structure Order where
  epic : String
  direction : Option Dir
  size : ℚ
  orderType : String
  level : ℚ
  stopLevel : ℚ
  profitLevel : ℚ
deriving DecidableEq

/-- A strategy result: the `decision` and, when present, the `order` payload
(the log-text `reason` and the echoed candle time are elided). -/
structure StratResult where
  decision : Decision
  order : Option Order
deriving DecidableEq

/-- The configuration fields `YesterdayHighLowStrategy.__init__` stores.
`risk_percent` holds the value after the `/ 100` in `__init__`, i.e. the risk
fraction. -/
structure StratConfig where
  epic : String
  account_balance : ℚ
  risk_percent : ℚ
  tp_pips : ℚ
  pip_size : ℚ
  contract_size : ℚ
deriving DecidableEq

/-- `YesterdayHighLowStrategy.__init__`: the raw risk percent is divided by
100 before being stored. -/
def mkStrategyConfig (epic : String) (account_balance risk_percent tp_pips
    pip_size contract_size : ℚ) : StratConfig :=
  { epic := epic, account_balance := account_balance,
    risk_percent := risk_percent / 100, tp_pips := tp_pips,
    pip_size := pip_size, contract_size := contract_size }

/-- The mutable per-instance strategy state.  In the source `y_high`/`y_low`
start as `None` and are always written by the new-day branch before any read;
the embedding tracks their numeric values (initial contents are junk that the
new-day branch overwrites before any comparison can happen). -/
structure StratState where
  today : Option Nat
  traded_today : Bool
  y_high : ℚ
  y_low : ℚ
  c1 : Option SCandle
  c2 : Option SCandle
  direction : Option Dir
deriving DecidableEq

/-- The state `YesterdayHighLowStrategy.__init__` leaves behind (levels junk
until the first candle loads them). -/
def initialStratState : StratState :=
  { today := none, traded_today := false, y_high := 0, y_low := 0,
    c1 := none, c2 := none, direction := none }

/-- Python's two-argument `min`: the first argument when the two are equal. -/
def pymin (a b : ℚ) : ℚ := if a ≤ b then a else b

/-- Python's two-argument `max`: the first argument when the two are equal. -/
def pymax (a b : ℚ) : ℚ := if b ≤ a then a else b

/-- Python's `abs` on an exact value. -/
def pyabs (x : ℚ) : ℚ := if x < 0 then -x else x

/-- Round half to even, the semantics of Python's `round` on an exact value. -/
def roundHalfEven (q : ℚ) : ℤ :=
  let f := ⌊q⌋
  let r := q - (f : ℚ)
  if r < 1 / 2 then f
  else if 1 / 2 < r then f + 1
  else if f % 2 = 0 then f else f + 1

/-- Python's `round(x, 2)`. -/
def pyRound2 (q : ℚ) : ℚ := (roundHalfEven (q * 100) : ℚ) / 100

/-- `YesterdayHighLowStrategy._calc_size`. -/
def calcSize (cfg : StratConfig) (entry stop : ℚ) : ℚ :=
  let risk_amount := cfg.account_balance * cfg.risk_percent
  let dist := pyabs (entry - stop)
  if dist ≤ 0 then 0
  else pyRound2 (risk_amount / (dist * cfg.contract_size))

/-- `YesterdayHighLowStrategy._reset_setup`. -/
def resetSetup (s : StratState) : StratState :=
  { s with c1 := none, c2 := none, direction := none }

/-- `YesterdayHighLowStrategy.load_yesterday_levels` followed by the INIT_DAY
result construction: the CSV row for the previous trading day is supplied by
the `levels` oracle that maps a day ordinal to its (high_bid, low_bid) pair. -/
def loadYesterdayLevels (levels : Nat → ℚ × ℚ) (s : StratState)
    (trading_date : Nat) : StratState :=
  let lv := levels (getPreviousTradingDay trading_date)
  { s with
    y_high := lv.1, y_low := lv.2, today := some trading_date,
    traded_today := false, c1 := none, c2 := none, direction := none }

/-- `YesterdayHighLowStrategy.on_candle_close`: the new state and the result. -/
def onCandleClose (cfg : StratConfig) (levels : Nat → ℚ × ℚ) (s : StratState)
    (c : SCandle) : StratState × StratResult :=
  let candle_date := c.start_time.day
  if s.today ≠ some candle_date then
    (loadYesterdayLevels levels s candle_date,
     { decision := Decision.INIT_DAY, order := none })
  else if s.traded_today then
    (s, { decision := Decision.BLOCKED, order := none })
  else
    match s.c1 with
    | none =>
      if s.y_high < c.close then
        ({ s with c1 := some c, direction := some Dir.BUY },
         { decision := Decision.C1, order := none })
      else if c.close < s.y_low then
        ({ s with c1 := some c, direction := some Dir.SELL },
         { decision := Decision.C1, order := none })
      else
        (s, { decision := Decision.NO_TRADE, order := none })
    | some k1 =>
      match s.c2 with
      | none =>
        if s.direction = some Dir.BUY ∧ s.y_high < c.close then
          ({ s with c2 := some c }, { decision := Decision.C2, order := none })
        else if s.direction = some Dir.SELL ∧ c.close < s.y_low then
          ({ s with c2 := some c }, { decision := Decision.C2, order := none })
        else
          (resetSetup s, { decision := Decision.INVALIDATED, order := none })
      | some k2 =>
        let entry := c.open_
        let sl := if s.direction = some Dir.BUY then pymin k1.low k2.low
                  else pymax k1.high k2.high
        let tp := if s.direction = some Dir.BUY then entry + cfg.tp_pips * cfg.pip_size
                  else entry - cfg.tp_pips * cfg.pip_size
        let size := calcSize cfg entry sl
        if size ≤ 0 then
          (resetSetup s, { decision := Decision.REJECTED, order := none })
        else
          (resetSetup { s with traded_today := true },
           { decision := Decision.SIGNAL,
             order := some {
               epic := cfg.epic, direction := s.direction, size := size,
               orderType := "STOP", level := entry, stopLevel := sl,
               profitLevel := tp } })

/-- Feeding a candle sequence through `on_candle_close`, collecting the
results. -/
def runCandles (cfg : StratConfig) (levels : Nat → ℚ × ℚ) (s : StratState) :
    List SCandle → StratState × List StratResult
  | [] => (s, [])
  | c :: cs =>
    let p := onCandleClose cfg levels s c
    let q := runCandles cfg levels p.1 cs
    (q.1, p.2 :: q.2)

/-- Claim C10: a candle whose date differs from the stored `today` always
yields INIT_DAY: the previous-trading-day levels are loaded, the lock and the
setup are reset, and no C1 is recorded on that candle whatever its prices. -/
theorem init_day_short_circuit (cfg : StratConfig) (levels : Nat → ℚ × ℚ)
    (s : StratState) (c : SCandle)
    (hnew : s.today ≠ some c.start_time.day) :
    onCandleClose cfg levels s c
      = ({ today := some c.start_time.day, traded_today := false,
           y_high := (levels (getPreviousTradingDay c.start_time.day)).1,
           y_low := (levels (getPreviousTradingDay c.start_time.day)).2,
           c1 := none, c2 := none, direction := none },
         { decision := Decision.INIT_DAY, order := none }) := by
  unfold onCandleClose loadYesterdayLevels
  rw [if_pos hnew]

/-- Witness for `init_day_short_circuit`: a first-ever candle (stored today is
`none`) whose close 10 is far above the loaded yesterday high 5 still yields
INIT_DAY with an empty setup. -/
theorem init_day_short_circuit_witness :
    onCandleClose (mkStrategyConfig "GOLD" 10000 2 300 (1 / 100) 100)
      (fun _ => (5, 1)) initialStratState
      { start_time := ⟨10, 9, 0, 0, 0⟩, open_ := 9, high := 11, low := 8, close := 10 }
      = ({ today := some 10, traded_today := false, y_high := 5, y_low := 1,
           c1 := none, c2 := none, direction := none },
         { decision := Decision.INIT_DAY, order := none }) :=
  init_day_short_circuit (mkStrategyConfig "GOLD" 10000 2 300 (1 / 100) 100)
    (fun _ => (5, 1)) initialStratState
    { start_time := ⟨10, 9, 0, 0, 0⟩, open_ := 9, high := 11, low := 8, close := 10 }
    (by decide)

/-- Claim C7: with levels loaded for the candle's day, the day not locked and
no setup recorded, a close strictly above yesterday's high records C1 with
direction BUY, a close strictly below yesterday's low records C1 with
direction SELL, and anything else — including a close exactly at a level —
yields NO_TRADE and changes nothing. -/
theorem c1_detection_strict (cfg : StratConfig) (levels : Nat → ℚ × ℚ)
    (s : StratState) (c : SCandle)
    (htoday : s.today = some c.start_time.day)
    (hlock : s.traded_today = false)
    (hc1 : s.c1 = none) :
    (s.y_high < c.close →
      onCandleClose cfg levels s c
        = ({ s with c1 := some c, direction := some Dir.BUY },
           { decision := Decision.C1, order := none })) ∧
    (¬ s.y_high < c.close → c.close < s.y_low →
      onCandleClose cfg levels s c
        = ({ s with c1 := some c, direction := some Dir.SELL },
           { decision := Decision.C1, order := none })) ∧
    (¬ s.y_high < c.close → ¬ c.close < s.y_low →
      onCandleClose cfg levels s c
        = (s, { decision := Decision.NO_TRADE, order := none })) := by
  have hni : ¬ s.today ≠ some c.start_time.day := fun h => h htoday
  refine ⟨fun hup => ?_, fun hup hdn => ?_, fun hup hdn => ?_⟩ <;>
    (unfold onCandleClose
     rw [if_neg hni, hlock]
     simp only [Bool.false_eq_true, if_false, hc1])
  · rw [if_pos hup]
  · rw [if_neg hup, if_pos hdn]
  · rw [if_neg hup, if_neg hdn]

/-- Witness for `c1_detection_strict`: a close exactly equal to yesterday's
high (5) yields NO_TRADE. -/
theorem c1_detection_strict_witness :
    onCandleClose (mkStrategyConfig "GOLD" 10000 2 300 (1 / 100) 100)
      (fun _ => (5, 1))
      { today := some 10, traded_today := false, y_high := 5, y_low := 1,
        c1 := none, c2 := none, direction := none }
      { start_time := ⟨10, 9, 15, 0, 0⟩, open_ := 4, high := 5, low := 4, close := 5 }
      = ({ today := some 10, traded_today := false, y_high := 5, y_low := 1,
           c1 := none, c2 := none, direction := none },
         { decision := Decision.NO_TRADE, order := none }) :=
  (c1_detection_strict (mkStrategyConfig "GOLD" 10000 2 300 (1 / 100) 100)
    (fun _ => (5, 1))
    { today := some 10, traded_today := false, y_high := 5, y_low := 1,
      c1 := none, c2 := none, direction := none }
    { start_time := ⟨10, 9, 15, 0, 0⟩, open_ := 4, high := 5, low := 4, close := 5 }
    (by decide) (by decide) (by decide)).2.2 (by decide) (by decide)

/-- Inverting a SIGNAL: it can only come from the entry branch, which runs on
a candle of the stored day and leaves the lock set with `today` unchanged. -/
theorem signal_inversion (cfg : StratConfig) (levels : Nat → ℚ × ℚ)
    (s s1 : StratState) (c : SCandle) (r : StratResult)
    (hstep : onCandleClose cfg levels s c = (s1, r))
    (hsig : r.decision = Decision.SIGNAL) :
    s1.traded_today = true ∧ s1.today = s.today ∧ s.today = some c.start_time.day := by
  unfold onCandleClose at hstep
  by_cases hday : s.today ≠ some c.start_time.day
  · rw [if_pos hday] at hstep
    cases hstep; exact absurd hsig (by decide)
  · rw [if_neg hday] at hstep
    have htoday : s.today = some c.start_time.day := not_not.mp hday
    by_cases hlock : s.traded_today = true
    · rw [if_pos hlock] at hstep
      cases hstep; exact absurd hsig (by decide)
    · rw [if_neg hlock] at hstep
      rcases hc1 : s.c1 with - | k1 <;> rw [hc1] at hstep <;> dsimp only at hstep
      · by_cases h1 : s.y_high < c.close
        · rw [if_pos h1] at hstep
          cases hstep; exact absurd hsig (by decide)
        · rw [if_neg h1] at hstep
          by_cases h2 : c.close < s.y_low
          · rw [if_pos h2] at hstep
            cases hstep; exact absurd hsig (by decide)
          · rw [if_neg h2] at hstep
            cases hstep; exact absurd hsig (by decide)
      · rcases hc2 : s.c2 with - | k2 <;> rw [hc2] at hstep <;> dsimp only at hstep
        · by_cases h1 : s.direction = some Dir.BUY ∧ s.y_high < c.close
          · rw [if_pos h1] at hstep
            cases hstep; exact absurd hsig (by decide)
          · rw [if_neg h1] at hstep
            by_cases h2 : s.direction = some Dir.SELL ∧ c.close < s.y_low
            · rw [if_pos h2] at hstep
              cases hstep; exact absurd hsig (by decide)
            · rw [if_neg h2] at hstep
              cases hstep; exact absurd hsig (by decide)
        · by_cases hsz : calcSize cfg c.open_
              (if s.direction = some Dir.BUY then pymin k1.low k2.low
               else pymax k1.high k2.high) ≤ 0
          · rw [if_pos hsz] at hstep
            cases hstep; exact absurd hsig (by decide)
          · rw [if_neg hsz] at hstep
            cases hstep; exact ⟨rfl, rfl, htoday⟩

/-- Claim C1: once `on_candle_close` fires SIGNAL (setting the day lock),
every later candle of the stored trading day yields BLOCKED and leaves the
whole state unchanged, whatever its prices. -/
theorem one_trade_per_day (cfg : StratConfig) (levels : Nat → ℚ × ℚ)
    (s s1 : StratState) (c c2 : SCandle) (r : StratResult)
    (hstep : onCandleClose cfg levels s c = (s1, r))
    (hsig : r.decision = Decision.SIGNAL)
    (hday : s1.today = some c2.start_time.day) :
    onCandleClose cfg levels s1 c2
      = (s1, { decision := Decision.BLOCKED, order := none }) := by
  obtain ⟨hlocked, -, -⟩ := signal_inversion cfg levels s s1 c r hstep hsig
  unfold onCandleClose
  rw [if_neg (fun h => h hday), hlocked]
  simp only [if_true]

/-- Witness scenario shared by the strategy theorems: the standard config and
a flat (5, 1) levels oracle. -/
def demoCfg : StratConfig := mkStrategyConfig "GOLD" 10000 2 300 (1 / 100) 100

/-- Levels oracle returning yesterday high 5 and low 1 for every day. -/
def demoLevels : Nat → ℚ × ℚ := fun _ => (5, 1)

/-- The recorded breakout candle of the armed demo state. -/
def demoC1Candle : SCandle :=
  { start_time := ⟨10, 9, 0, 0, 0⟩, open_ := 4, high := 7, low := 6, close := 6 }

/-- The recorded acceptance candle of the armed demo state. -/
def demoC2Candle : SCandle :=
  { start_time := ⟨10, 9, 15, 0, 0⟩, open_ := 6, high := 8, low := 61 / 10, close := 7 }

/-- A state on day 10 with C1 and C2 both recorded for a BUY setup. -/
def demoArmedState : StratState :=
  { today := some 10, traded_today := false, y_high := 5, y_low := 1,
    c1 := some demoC1Candle, c2 := some demoC2Candle,
    direction := some Dir.BUY }

/-- The entry candle fed to the armed state: opens at 6.5. -/
def demoEntryCandle : SCandle :=
  { start_time := ⟨10, 9, 30, 0, 0⟩, open_ := 13 / 2, high := 7, low := 6, close := 7 }

/-- A later candle on day 10. -/
def demoLaterCandle : SCandle :=
  { start_time := ⟨10, 9, 45, 0, 0⟩, open_ := 20, high := 25, low := 19, close := 24 }

/-- The locked state left behind once the armed state fires its SIGNAL. -/
def demoSignalState : StratState :=
  { today := some 10, traded_today := true, y_high := 5, y_low := 1,
    c1 := none, c2 := none, direction := none }

/-- The SIGNAL result the armed state produces on the entry candle: size 4,
stop at the lower of the two setup lows (6), target 3 above the 6.5 entry. -/
def demoSignalResult : StratResult :=
  { decision := Decision.SIGNAL,
    order := some {
      epic := "GOLD", direction := some Dir.BUY, size := 4, orderType := "STOP",
      level := 13 / 2, stopLevel := 6, profitLevel := 19 / 2 } }

/-- Witness for `one_trade_per_day`: after the armed state fires a SIGNAL on
the entry candle, a later day-10 candle is BLOCKED with the state unchanged. -/
theorem one_trade_per_day_witness :
    onCandleClose demoCfg demoLevels demoSignalState demoLaterCandle
      = (demoSignalState, { decision := Decision.BLOCKED, order := none }) :=
  one_trade_per_day demoCfg demoLevels demoArmedState demoSignalState
    demoEntryCandle demoLaterCandle demoSignalResult
    (by norm_num [onCandleClose, calcSize, pymin, pymax, pyabs, pyRound2,
      roundHalfEven, resetSetup, demoCfg, demoLevels, demoArmedState,
      demoC1Candle, demoC2Candle, demoEntryCandle, demoSignalState,
      demoSignalResult, mkStrategyConfig])
    (by rfl) (by rfl)

/-- The day-10 candle run demonstrating recovery after an invalidation:
an INIT_DAY candle, a breakout close 6, a failed acceptance close 4, then a
fresh breakout close 7 (low 6), an acceptance close 6.5 (low 6.1) and an entry
candle opening at 6.5. -/
def demoRecoveryRun : List SCandle :=
  [{ start_time := ⟨10, 9, 0, 0, 0⟩, open_ := 3, high := 4, low := 2, close := 3 },
   { start_time := ⟨10, 9, 15, 0, 0⟩, open_ := 4, high := 7, low := 4, close := 6 },
   { start_time := ⟨10, 9, 30, 0, 0⟩, open_ := 6, high := 6, low := 4, close := 4 },
   { start_time := ⟨10, 9, 45, 0, 0⟩, open_ := 4, high := 8, low := 6, close := 7 },
   { start_time := ⟨10, 10, 0, 0, 0⟩, open_ := 7, high := 8, low := 61 / 10, close := 13 / 2 },
   { start_time := ⟨10, 10, 15, 0, 0⟩, open_ := 13 / 2, high := 7, low := 6, close := 7 }]

/-- Claim C6: a candle that fails to confirm the recorded breakout side
invalidates the setup (C1, C2, direction cleared) without locking the day, and
a later valid C1/C2/C3 sequence the same day can still fire a SIGNAL, as the
concrete day-10 run shows. -/
theorem invalidation_does_not_lock (cfg : StratConfig) (levels : Nat → ℚ × ℚ)
    (s : StratState) (c : SCandle) (k1 : SCandle) (dir : Dir)
    (htoday : s.today = some c.start_time.day)
    (hlock : s.traded_today = false)
    (hc1 : s.c1 = some k1)
    (hc2 : s.c2 = none)
    (hdir : s.direction = some dir)
    (hfail : (dir = Dir.BUY → ¬ s.y_high < c.close) ∧
      (dir = Dir.SELL → ¬ c.close < s.y_low)) :
    onCandleClose cfg levels s c
      = (resetSetup s, { decision := Decision.INVALIDATED, order := none }) ∧
    (resetSetup s).traded_today = false ∧
    (runCandles demoCfg demoLevels initialStratState demoRecoveryRun).2.map
        StratResult.decision
      = [Decision.INIT_DAY, Decision.C1, Decision.INVALIDATED,
         Decision.C1, Decision.C2, Decision.SIGNAL] := by
  have hni : ¬ s.today ≠ some c.start_time.day := fun h => h htoday
  refine ⟨?_, hlock, ?_⟩
  · unfold onCandleClose
    rw [if_neg hni, hlock]
    simp only [Bool.false_eq_true, if_false, hc1, hc2]
    rw [if_neg ?hb, if_neg ?hs]
    case hb =>
      rintro ⟨hd, hcl⟩
      rw [hdir] at hd
      cases Option.some.inj hd
      exact hfail.1 rfl hcl
    case hs =>
      rintro ⟨hd, hcl⟩
      rw [hdir] at hd
      cases Option.some.inj hd
      exact hfail.2 rfl hcl
  · have h0 : onCandleClose demoCfg demoLevels initialStratState
        { start_time := ⟨10, 9, 0, 0, 0⟩, open_ := 3, high := 4, low := 2, close := 3 }
        = ({ today := some 10, traded_today := false, y_high := 5, y_low := 1,
             c1 := none, c2 := none, direction := none },
           { decision := Decision.INIT_DAY, order := none }) := by
      norm_num [onCandleClose, loadYesterdayLevels, initialStratState,
        demoCfg, demoLevels, mkStrategyConfig]
      decide
    have h1 : onCandleClose demoCfg demoLevels
        { today := some 10, traded_today := false, y_high := 5, y_low := 1,
          c1 := none, c2 := none, direction := none }
        { start_time := ⟨10, 9, 15, 0, 0⟩, open_ := 4, high := 7, low := 4, close := 6 }
        = ({ today := some 10, traded_today := false, y_high := 5, y_low := 1,
             c1 := some { start_time := ⟨10, 9, 15, 0, 0⟩, open_ := 4, high := 7, low := 4, close := 6 },
             c2 := none, direction := some Dir.BUY },
           { decision := Decision.C1, order := none }) := by
      norm_num [onCandleClose]
    have h2 : onCandleClose demoCfg demoLevels
        { today := some 10, traded_today := false, y_high := 5, y_low := 1,
          c1 := some { start_time := ⟨10, 9, 15, 0, 0⟩, open_ := 4, high := 7, low := 4, close := 6 },
          c2 := none, direction := some Dir.BUY }
        { start_time := ⟨10, 9, 30, 0, 0⟩, open_ := 6, high := 6, low := 4, close := 4 }
        = ({ today := some 10, traded_today := false, y_high := 5, y_low := 1,
             c1 := none, c2 := none, direction := none },
           { decision := Decision.INVALIDATED, order := none }) := by
      norm_num [onCandleClose, resetSetup]
    have h3 : onCandleClose demoCfg demoLevels
        { today := some 10, traded_today := false, y_high := 5, y_low := 1,
          c1 := none, c2 := none, direction := none }
        { start_time := ⟨10, 9, 45, 0, 0⟩, open_ := 4, high := 8, low := 6, close := 7 }
        = ({ today := some 10, traded_today := false, y_high := 5, y_low := 1,
             c1 := some { start_time := ⟨10, 9, 45, 0, 0⟩, open_ := 4, high := 8, low := 6, close := 7 },
             c2 := none, direction := some Dir.BUY },
           { decision := Decision.C1, order := none }) := by
      norm_num [onCandleClose]
    have h4 : onCandleClose demoCfg demoLevels
        { today := some 10, traded_today := false, y_high := 5, y_low := 1,
          c1 := some { start_time := ⟨10, 9, 45, 0, 0⟩, open_ := 4, high := 8, low := 6, close := 7 },
          c2 := none, direction := some Dir.BUY }
        { start_time := ⟨10, 10, 0, 0, 0⟩, open_ := 7, high := 8, low := 61 / 10, close := 13 / 2 }
        = ({ today := some 10, traded_today := false, y_high := 5, y_low := 1,
             c1 := some { start_time := ⟨10, 9, 45, 0, 0⟩, open_ := 4, high := 8, low := 6, close := 7 },
             c2 := some { start_time := ⟨10, 10, 0, 0, 0⟩, open_ := 7, high := 8, low := 61 / 10, close := 13 / 2 },
             direction := some Dir.BUY },
           { decision := Decision.C2, order := none }) := by
      norm_num [onCandleClose]
    have h5 : onCandleClose demoCfg demoLevels
        { today := some 10, traded_today := false, y_high := 5, y_low := 1,
          c1 := some { start_time := ⟨10, 9, 45, 0, 0⟩, open_ := 4, high := 8, low := 6, close := 7 },
          c2 := some { start_time := ⟨10, 10, 0, 0, 0⟩, open_ := 7, high := 8, low := 61 / 10, close := 13 / 2 },
          direction := some Dir.BUY }
        { start_time := ⟨10, 10, 15, 0, 0⟩, open_ := 13 / 2, high := 7, low := 6, close := 7 }
        = ({ today := some 10, traded_today := true, y_high := 5, y_low := 1,
             c1 := none, c2 := none, direction := none },
           { decision := Decision.SIGNAL,
             order := some {
               epic := "GOLD", direction := some Dir.BUY, size := 4,
               orderType := "STOP", level := 13 / 2, stopLevel := 6,
               profitLevel := 19 / 2 } }) := by
      norm_num [onCandleClose, resetSetup, calcSize, pymin, pymax, pyabs,
        pyRound2, roundHalfEven, demoCfg, mkStrategyConfig]
    simp only [demoRecoveryRun, runCandles, h0, h1, h2, h3, h4, h5,
      List.map_cons, List.map_nil]

/-- Witness for `invalidation_does_not_lock`: a BUY setup whose next candle
closes back at 4, inside the (5, 1) range. -/
theorem invalidation_does_not_lock_witness :
    onCandleClose demoCfg demoLevels
      { today := some 10, traded_today := false, y_high := 5, y_low := 1,
        c1 := some { start_time := ⟨10, 9, 15, 0, 0⟩, open_ := 4, high := 7, low := 4, close := 6 },
        c2 := none, direction := some Dir.BUY }
      { start_time := ⟨10, 9, 30, 0, 0⟩, open_ := 6, high := 6, low := 4, close := 4 }
      = (resetSetup
          { today := some 10, traded_today := false, y_high := 5, y_low := 1,
            c1 := some { start_time := ⟨10, 9, 15, 0, 0⟩, open_ := 4, high := 7, low := 4, close := 6 },
            c2 := none, direction := some Dir.BUY },
         { decision := Decision.INVALIDATED, order := none }) :=
  (invalidation_does_not_lock demoCfg demoLevels
    { today := some 10, traded_today := false, y_high := 5, y_low := 1,
      c1 := some { start_time := ⟨10, 9, 15, 0, 0⟩, open_ := 4, high := 7, low := 4, close := 6 },
      c2 := none, direction := some Dir.BUY }
    { start_time := ⟨10, 9, 30, 0, 0⟩, open_ := 6, high := 6, low := 4, close := 4 }
    { start_time := ⟨10, 9, 15, 0, 0⟩, open_ := 4, high := 7, low := 4, close := 6 }
    Dir.BUY rfl rfl rfl rfl rfl (by decide)).1

/-- The stop level the entry branch computes: the lower of the two setup lows
for BUY, the higher of the two highs for SELL. -/
def stopFor : Dir → SCandle → SCandle → ℚ
  | Dir.BUY, k1, k2 => pymin k1.low k2.low
  | Dir.SELL, k1, k2 => pymax k1.high k2.high

/-- The profit target the entry branch computes: the entry shifted by
`tp_pips × pip_size` in the trade direction. -/
def targetFor (cfg : StratConfig) : Dir → ℚ → ℚ
  | Dir.BUY, entry => entry + cfg.tp_pips * cfg.pip_size
  | Dir.SELL, entry => entry - cfg.tp_pips * cfg.pip_size

/-- Claim C2: on the entry candle (C1 and C2 both set) the entry is the
candle's open, the stop is `stopFor`, the target `targetFor`, and the size the
rounded risk quotient; a non-positive size (in particular a zero stop
distance) rejects without locking the day, a positive size locks the day and
fires SIGNAL with the full STOP-order payload; and the spec's sizing example
gives 4 while entry = stop gives size 0 rather than a division fault. -/
theorem c3_entry (cfg : StratConfig) (levels : Nat → ℚ × ℚ) (s : StratState)
    (c : SCandle) (k1 k2 : SCandle) (dir : Dir)
    (htoday : s.today = some c.start_time.day)
    (hlock : s.traded_today = false)
    (hc1 : s.c1 = some k1)
    (hc2 : s.c2 = some k2)
    (hdir : s.direction = some dir) :
    (calcSize cfg c.open_ (stopFor dir k1 k2) ≤ 0 →
      onCandleClose cfg levels s c
        = (resetSetup s, { decision := Decision.REJECTED, order := none })) ∧
    (0 < calcSize cfg c.open_ (stopFor dir k1 k2) →
      onCandleClose cfg levels s c
        = ({ resetSetup s with traded_today := true },
           { decision := Decision.SIGNAL,
             order := some {
               epic := cfg.epic, direction := some dir,
               size := calcSize cfg c.open_ (stopFor dir k1 k2),
               orderType := "STOP", level := c.open_,
               stopLevel := stopFor dir k1 k2,
               profitLevel := targetFor cfg dir c.open_ } })) ∧
    (0 < pyabs (c.open_ - stopFor dir k1 k2) →
      calcSize cfg c.open_ (stopFor dir k1 k2)
        = pyRound2 (cfg.account_balance * cfg.risk_percent
            / (pyabs (c.open_ - stopFor dir k1 k2) * cfg.contract_size))) ∧
    (resetSetup s).traded_today = false ∧
    calcSize demoCfg 100 (199 / 2) = 4 ∧
    calcSize demoCfg 100 100 = 0 := by
  have hni : ¬ s.today ≠ some c.start_time.day := fun h => h htoday
  have hstep : onCandleClose cfg levels s c
      = (if calcSize cfg c.open_ (stopFor dir k1 k2) ≤ 0 then
          (resetSetup s, { decision := Decision.REJECTED, order := none })
        else
          ({ resetSetup s with traded_today := true },
           { decision := Decision.SIGNAL,
             order := some {
               epic := cfg.epic, direction := some dir,
               size := calcSize cfg c.open_ (stopFor dir k1 k2),
               orderType := "STOP", level := c.open_,
               stopLevel := stopFor dir k1 k2,
               profitLevel := targetFor cfg dir c.open_ } })) := by
    unfold onCandleClose
    rw [if_neg hni, hlock]
    simp only [Bool.false_eq_true, if_false, hc1, hc2, hdir]
    cases dir <;>
      simp only [stopFor, targetFor, resetSetup, Option.some.injEq,
        reduceCtorEq, reduceIte, eq_self_iff_true, if_true, if_false]
  refine ⟨fun hrej => ?_, fun hsig => ?_, fun hdist => ?_, hlock, ?_, ?_⟩
  · rw [hstep, if_pos hrej]
  · rw [hstep, if_neg (not_le.mpr hsig)]
  · unfold calcSize
    rw [if_neg (not_le.mpr hdist)]
  · norm_num [calcSize, pyabs, pyRound2, roundHalfEven, demoCfg, mkStrategyConfig]
  · norm_num [calcSize, pyabs, demoCfg, mkStrategyConfig]

/-- Witness for `c3_entry`: the armed BUY state of `demoArmedState` fires the
(size 4, stop 6, target 9.5) STOP order on the 6.5-open entry candle. -/
theorem c3_entry_witness :
    onCandleClose demoCfg demoLevels demoArmedState demoEntryCandle
      = ({ resetSetup demoArmedState with traded_today := true },
         { decision := Decision.SIGNAL,
           order := some {
             epic := demoCfg.epic, direction := some Dir.BUY,
             size := calcSize demoCfg demoEntryCandle.open_
               (stopFor Dir.BUY demoC1Candle demoC2Candle),
             orderType := "STOP", level := demoEntryCandle.open_,
             stopLevel := stopFor Dir.BUY demoC1Candle demoC2Candle,
             profitLevel := targetFor demoCfg Dir.BUY demoEntryCandle.open_ } }) :=
  (c3_entry demoCfg demoLevels demoArmedState demoEntryCandle
    demoC1Candle demoC2Candle Dir.BUY rfl rfl rfl rfl rfl).2.1
    (by norm_num [calcSize, stopFor, pymin, pyabs, pyRound2, roundHalfEven,
      demoCfg, demoC1Candle, demoC2Candle, demoEntryCandle, mkStrategyConfig])

/-- The session fields of `CapitalClient`: the two tokens (`None` before
login, and falsy also when empty) and the stored expiry, a timestamp in
seconds. -/
structure SessionState where
  cst : Option String
  security_token : Option String
  session_expiry : Option Int
deriving DecidableEq

/-- Python truthiness of an optional string: `None` and `""` are falsy. -/
def truthy : Option String → Bool
  | none => false
  | some s => s ≠ ""

/-- `CapitalClient._is_session_valid` with the current time passed
explicitly (seconds; the 5-minute buffer is 300 s): false without both
tokens, true when no expiry is stored, else true exactly before
`expiry - 300`. -/
def isSessionValid (now : Int) (s : SessionState) : Bool :=
  if ¬ truthy s.cst ∨ ¬ truthy s.security_token then false
  else
    match s.session_expiry with
    | none => true
    | some e => now < e - 5 * 60

/-- `CapitalClient._renew_session`: the login call (an external HTTP
handshake) is the `login` oracle; the lock around it is serialisation-only. -/
def renewSession (login : SessionState → SessionState) (s : SessionState) :
    SessionState :=
  login s

/-- `CapitalClient._ensure_valid_session`. -/
def ensureValidSession (login : SessionState → SessionState) (now : Int)
    (s : SessionState) : SessionState :=
  if isSessionValid now s then s else renewSession login s

/-- The header dictionary both header builders return. -/
structure Headers where
  api_key : String
  cst : String
  security_token : String
deriving DecidableEq

/-- The body of the `headers` property after `_ensure_valid_session`: raise
(`Except.error`) when the tokens are still falsy, else the header fields. -/
def headersBody (apiKey : String) (s : SessionState) :
    Except String Headers :=
  if ¬ truthy s.cst ∨ ¬ truthy s.security_token then
    Except.error "Call login first"
  else
    Except.ok { api_key := apiKey, cst := s.cst.getD "",
                security_token := s.security_token.getD "" }

/-- `CapitalClient.headers`: ensure a valid session, then build the request
headers; returns the (possibly renewed) state alongside. -/
def headers (apiKey : String) (login : SessionState → SessionState)
    (now : Int) (s : SessionState) : SessionState × Except String Headers :=
  let s1 := ensureValidSession login now s
  (s1, headersBody apiKey s1)

/-- The body of `get_websocket_headers` after `_ensure_valid_session` (no
raise; absent tokens appear as empty strings). -/
def websocketHeadersBody (apiKey : String) (s : SessionState) : Headers :=
  { api_key := apiKey, cst := s.cst.getD "",
    security_token := s.security_token.getD "" }

/-- `CapitalClient.get_websocket_headers`. -/
def getWebsocketHeaders (apiKey : String)
    (login : SessionState → SessionState) (now : Int) (s : SessionState) :
    SessionState × Headers :=
  let s1 := ensureValidSession login now s
  (s1, websocketHeadersBody apiKey s1)

/-- Modelled from the spec: session validity exactly as the claim words it —
both tokens present and the current time strictly before the stored expiry
minus the 5-minute buffer. -/
def claimSessionValid (now : Int) (s : SessionState) : Prop :=
  truthy s.cst = true ∧ truthy s.security_token = true ∧
  ∃ e, s.session_expiry = some e ∧ now < e - 5 * 60

/-- Claim C9 (counterexample): with both tokens set but no stored expiry,
`_is_session_valid` returns true although no expiry bound holds, so the
claim's "exactly when" fails. -/
theorem session_validity_cex :
    isSessionValid 0 ⟨some "t", some "u", none⟩ = true ∧
    ¬ claimSessionValid 0 ⟨some "t", some "u", none⟩ := by
  constructor
  · rfl
  · rintro ⟨-, -, e, he, -⟩
    exact Option.noConfusion he

/-- Claim C9 (amended): the validity check returns true exactly when both
tokens are non-empty and either no expiry is stored (assumed valid) or the
current time is strictly before expiry minus the 5-minute buffer; both header
builders run the check first, renew exactly when it fails, and only then
build the headers from the resulting credentials. -/
theorem session_validity_amended (now : Int) (s : SessionState)
    (apiKey : String) (login : SessionState → SessionState) :
    (isSessionValid now s = true ↔
      (truthy s.cst = true ∧ truthy s.security_token = true ∧
        (s.session_expiry = none ∨
          ∃ e, s.session_expiry = some e ∧ now < e - 5 * 60))) ∧
    (isSessionValid now s = false →
      headers apiKey login now s = (login s, headersBody apiKey (login s)) ∧
      getWebsocketHeaders apiKey login now s
        = (login s, websocketHeadersBody apiKey (login s))) ∧
    (isSessionValid now s = true →
      headers apiKey login now s = (s, headersBody apiKey s) ∧
      getWebsocketHeaders apiKey login now s
        = (s, websocketHeadersBody apiKey s)) := by
  refine ⟨?_, fun hbad => ?_, fun hok => ?_⟩
  · unfold isSessionValid
    constructor
    · intro hv
      by_cases ht : ¬ truthy s.cst ∨ ¬ truthy s.security_token
      · rw [if_pos ht] at hv
        exact absurd hv (by decide)
      · push_neg at ht
        refine ⟨ht.1, ht.2, ?_⟩
        rw [if_neg (by push_neg; exact ht)] at hv
        cases he : s.session_expiry with
        | none => exact Or.inl rfl
        | some e =>
          rw [he] at hv
          exact Or.inr ⟨e, rfl, by simpa using hv⟩
    · rintro ⟨h1, h2, hex⟩
      rw [if_neg (by push_neg; exact ⟨h1, h2⟩)]
      rcases hex with he | ⟨e, he, hlt⟩ <;> rw [he]
      simpa using hlt
  · unfold headers getWebsocketHeaders ensureValidSession renewSession
    rw [hbad]
    exact ⟨rfl, rfl⟩
  · unfold headers getWebsocketHeaders ensureValidSession
    rw [hok]
    exact ⟨rfl, rfl⟩

/-- A login oracle for the witness: installs fresh tokens with a 23-hour
expiry. -/
def demoLogin : SessionState → SessionState :=
  fun _ => ⟨some "fresh-cst", some "fresh-sec", some 82800⟩

/-- Witness for `session_validity_amended`: with no credentials at time 0,
building request headers renews first and then succeeds on the fresh
tokens. -/
theorem session_validity_amended_witness :
    headers "key" demoLogin 0 ⟨none, none, none⟩
      = (demoLogin ⟨none, none, none⟩,
         headersBody "key" (demoLogin ⟨none, none, none⟩)) :=
  ((session_validity_amended 0 ⟨none, none, none⟩ "key" demoLogin).2.1
    (by rfl)).1

end TradingAlgo
